import Mathlib

/-!
Verification of the tracking control loop of `ServoAI_centerbox2.py`.

The program is embedded shallowly: the mutable globals and the closure
variables of `run` become the fields of `RunState`; hardware writes (servo
commands) are recorded as the list of angles passed to `set_angle`; the
detector callback and one iteration of the `while True` loop become pure
state transformers, and an execution is a fold over a list of `Event`s.
-/

namespace ServoAI

/-- A MediaPipe bounding box: origin and extent in frame pixels. -/
structure BoundingBox where
  origin_x : Nat
  origin_y : Nat
  width : Nat
  height : Nat
deriving DecidableEq

/-- One detection result entry; the control code reads only `bounding_box`. -/
structure Detection where
  bounding_box : BoundingBox
deriving DecidableEq

/-- The type of `result.detections`: the detections of one inference result. -/
abbrev Batch := List Detection

/-- Computes `bbox.origin_x + bbox.width // 2` (line 134 of the source). -/
def bboxCenterX (b : BoundingBox) : Nat := b.origin_x + b.width / 2

/-- Computes `bbox.origin_y + bbox.height // 2` (line 135 of the source). -/
def bboxCenterY (b : BoundingBox) : Nat := b.origin_y + b.height / 2

/-- Computes `abs (a - b)` for the Python ints holding pixel coordinates. -/
def absDiff (a b : Nat) : Nat := ((a : Int) - (b : Int)).natAbs

/-- The mutable state of `run`: the shared `detection_result_list`, the
closure variable `detection_count`, the module globals `servo_angle` and
`servo_direction`, and the LED output pin (GPIO 15). -/
structure RunState where
  detection_result_list : List Batch
  detection_count : Nat
  servo_angle : Int
  servo_direction : Int
  led : Bool
deriving DecidableEq

/-- The initial state: empty result list and zero count (lines 100-101),
`servo_angle = 0`, `servo_direction = 1` (lines 39-40), LED low (line 32). -/
def initState : RunState :=
  { detection_result_list := [], detection_count := 0,
    servo_angle := 0, servo_direction := 1, led := false }

/-- Embeds `set_angle(angle)` (lines 59-66): pulses the servo pin with duty cycle
`angle / 18 + 2` for 0.5 s and stops the pulse.  The hardware effect is
recorded as the commanded angle; the body assigns none of the program
variables — in particular it does not write `servo_angle`. -/
def set_angle (s : RunState) (angle : Int) : RunState × List Int :=
  (s, [angle])

/-- Embeds `move_servo_continuous` (lines 68-74): command the current angle,
advance it by `10 * servo_direction`, and flip the direction when the new
angle reaches or passes 180 or 0. -/
def move_servo_continuous (s : RunState) : RunState × List Int :=
  let r := set_angle s s.servo_angle
  let a := r.1.servo_angle + 10 * r.1.servo_direction
  if a ≥ 180 ∨ a ≤ 0 then
    ({ r.1 with servo_angle := a, servo_direction := -r.1.servo_direction }, r.2)
  else
    ({ r.1 with servo_angle := a, servo_direction := r.1.servo_direction }, r.2)

/-- Embeds `move_servo_to_center(bbox_center_x, bbox_center_y, frame_center_x,
frame_center_y)` (lines 76-93): with tolerance 20, command
`servo_angle - 5` when the target is left of the frame center and
`servo_angle + 5` when right; then, on the same angle variable, command
`servo_angle + 5` when the target is above center and `servo_angle - 5`
when below. -/
def move_servo_to_center (s : RunState) (bcx bcy fcx fcy : Nat) :
    RunState × List Int :=
  let tolerance : Nat := 20
  let r1 :=
    if absDiff bcx fcx > tolerance then
      if bcx < fcx then set_angle s (s.servo_angle - 5)
      else set_angle s (s.servo_angle + 5)
    else (s, [])
  let r2 :=
    if absDiff bcy fcy > tolerance then
      if bcy < fcy then set_angle r1.1 (r1.1.servo_angle + 5)
      else set_angle r1.1 (r1.1.servo_angle - 5)
    else (r1.1, [])
  (r2.1, r1.2 ++ r2.2)

/-- Embeds `save_result` (lines 103-107), the detector's asynchronous callback:
append the result to `detection_result_list`; increment `detection_count`
exactly when the result has at least 2 detections. -/
def save_result (s : RunState) (result : Batch) : RunState :=
  { s with
    detection_result_list := s.detection_result_list ++ [result],
    detection_count :=
      if 2 ≤ result.length then s.detection_count + 1
      else s.detection_count }

/-- The mailbox drain performed by the tracking branch (lines 130, 131 and
141): when `detection_result_list` is non-empty, read
`detection_result_list[0]` and then `detection_result_list.clear()`;
otherwise report that no batch is available. -/
def take (s : RunState) : Option Batch × RunState :=
  match s.detection_result_list with
  | [] => (none, s)
  | b :: _ => (some b, { s with detection_result_list := [] })

/-- The `for detection in detection_result_list[0].detections` loop
(lines 132-138): process each detection in order with
`move_servo_to_center`. -/
def track_batch (fcx fcy : Nat) (s : RunState) : Batch → RunState × List Int
  | [] => (s, [])
  | d :: ds =>
    let r1 := move_servo_to_center s (bboxCenterX d.bounding_box)
      (bboxCenterY d.bounding_box) fcx fcy
    let r2 := track_batch fcx fcy r1.1 ds
    (r2.1, r1.2 ++ r2.2)

/-- One iteration of the `while True` loop of `run` (lines 117-153), with
`frame_center_x = width // 2` and `frame_center_y = height // 2`
(lines 98-99): scan while `detection_count < 2` (line 126); otherwise drain
the mailbox, track the drained batch and raise the LED (lines 130-142), or
lower the LED when the mailbox is empty (lines 143-144).  Returns the new
state and the angles commanded during this cycle. -/
def cycle (width height : Nat) (s : RunState) : RunState × List Int :=
  if s.detection_count < 2 then
    move_servo_continuous s
  else
    match take s with
    | (none, s1) => ({ s1 with led := false }, [])
    | (some b, s1) =>
      let r := track_batch (width / 2) (height / 2) s1 b
      ({ r.1 with led := true }, r.2)

/-- An externally visible event: the detector callback delivering one
result, or one iteration of the control loop. -/
inductive Event where
  | publish (b : Batch)
  | tick
deriving DecidableEq

/-- One event's effect on the program state. -/
def step (width height : Nat) (s : RunState) : Event → RunState
  | .publish b => save_result s b
  | .tick => (cycle width height s).1

/-- Run a sequence of events from a state. -/
def runEvents (width height : Nat) (s : RunState) (evs : List Event) :
    RunState :=
  evs.foldl (step width height) s

/-- The controller mode, as decided by the branch at line 126. -/
inductive Mode where
  | scanning
  | tracking
deriving DecidableEq

/-- Returns `Scanning` while `detection_count < 2`, `Tracking` otherwise. -/
def mode (s : RunState) : Mode :=
  if s.detection_count < 2 then .scanning else .tracking

/-- The state after `n` repeated Scan Behavior invocations. -/
def scanIter (s : RunState) : Nat → RunState
  | 0 => s
  | n + 1 => scanIter (move_servo_continuous s).1 n

/-- The angles commanded by `n` repeated Scan Behavior invocations. -/
def scanCmds (s : RunState) : Nat → List Int
  | 0 => []
  | n + 1 => (move_servo_continuous s).2 ++ scanCmds (move_servo_continuous s).1 n

/-- The states from which the sweep stays within bounds: an angle that is a
multiple of 10 inside [0,180] and a direction of ±1 that points inward at a
bound. The program's initial state is one of them. -/
def ScanInv (s : RunState) : Prop :=
  s.servo_angle % 10 = 0 ∧ 0 ≤ s.servo_angle ∧ s.servo_angle ≤ 180 ∧
  (s.servo_direction = 1 ∨ s.servo_direction = -1) ∧
  (s.servo_angle = 0 → s.servo_direction = 1) ∧
  (s.servo_angle = 180 → s.servo_direction = -1)

/-- The number of published results with at least 2 detections in an event
sequence. -/
def lockPublishes (evs : List Event) : Nat :=
  evs.countP fun e =>
    match e with
    | .publish b => decide (2 ≤ b.length)
    | .tick => false

/-- A detection whose bounding-box center is the frame center (320,240) of
a 640 by 480 frame. -/
def centeredDet : Detection := ⟨⟨300, 220, 40, 40⟩⟩

/-- A detection whose bounding-box center is (200,240): left of the frame
center of a 640 by 480 frame. -/
def leftDet : Detection := ⟨⟨180, 220, 40, 40⟩⟩

/-- A detection whose bounding-box center is (325,240): 5 px right of the
frame center, inside the 20 px tolerance. -/
def nearCenterDet : Detection := ⟨⟨305, 220, 40, 40⟩⟩

/-- A detection whose bounding-box center is (345,240): 25 px right of the
frame center, outside the 20 px tolerance. -/
def rightDet : Detection := ⟨⟨325, 220, 40, 40⟩⟩

/-- The end-to-end scenario of the spec: two published batches of 2
detections (with a control cycle after each), then a published batch of one
detection centered at (200,240), feeding the next cycle. -/
def endToEndEvents : List Event :=
  [.publish [centeredDet, centeredDet], .tick,
   .publish [centeredDet, centeredDet], .tick, .publish [leftDet]]

/-- The state just before the scenario's final cycle. -/
def endToEndState : RunState := runEvents 640 480 initState endToEndEvents

/-! ## Basic lemmas about the embedded operations -/

theorem set_angle_fst (s : RunState) (a : Int) : (set_angle s a).1 = s := rfl

theorem move_servo_continuous_cmds (s : RunState) :
    (move_servo_continuous s).2 = [s.servo_angle] := by
  unfold move_servo_continuous set_angle
  dsimp only
  split <;> rfl

theorem move_servo_continuous_angle (s : RunState) :
    (move_servo_continuous s).1.servo_angle =
      s.servo_angle + 10 * s.servo_direction := by
  unfold move_servo_continuous set_angle
  dsimp only
  split <;> rfl

theorem move_servo_continuous_count (s : RunState) :
    (move_servo_continuous s).1.detection_count = s.detection_count := by
  unfold move_servo_continuous set_angle
  dsimp only
  split <;> rfl

theorem move_servo_continuous_led (s : RunState) :
    (move_servo_continuous s).1.led = s.led := by
  unfold move_servo_continuous set_angle
  dsimp only
  split <;> rfl

theorem move_servo_to_center_fst (s : RunState) (bcx bcy fcx fcy : Nat) :
    (move_servo_to_center s bcx bcy fcx fcy).1 = s := by
  unfold move_servo_to_center set_angle
  dsimp only
  split_ifs <;> rfl

theorem move_servo_to_center_mem (s : RunState) (bcx bcy fcx fcy : Nat) :
    ∀ c ∈ (move_servo_to_center s bcx bcy fcx fcy).2,
      c = s.servo_angle - 5 ∨ c = s.servo_angle + 5 := by
  unfold move_servo_to_center set_angle
  dsimp only
  split_ifs <;> intro c hc <;> simp at hc <;> tauto

theorem track_batch_fst (fcx fcy : Nat) (s : RunState) (b : Batch) :
    (track_batch fcx fcy s b).1 = s := by
  induction b generalizing s with
  | nil => rfl
  | cons d ds ih =>
    show (track_batch fcx fcy
      (move_servo_to_center s _ _ fcx fcy).1 ds).1 = s
    rw [move_servo_to_center_fst, ih]

theorem track_batch_mem (fcx fcy : Nat) (s : RunState) (b : Batch) :
    ∀ c ∈ (track_batch fcx fcy s b).2,
      c = s.servo_angle - 5 ∨ c = s.servo_angle + 5 := by
  induction b generalizing s with
  | nil => intro c hc; simp [track_batch] at hc
  | cons d ds ih =>
    intro c hc
    simp only [track_batch, List.mem_append] at hc
    rcases hc with hc | hc
    · exact move_servo_to_center_mem s _ _ fcx fcy c hc
    · rw [move_servo_to_center_fst] at hc
      exact ih s c hc

theorem cycle_count (w h : Nat) (s : RunState) :
    (cycle w h s).1.detection_count = s.detection_count := by
  unfold cycle
  split
  · exact move_servo_continuous_count s
  · cases hl : s.detection_result_list with
    | nil => simp [take, hl]
    | cons b t => simp [take, hl, track_batch_fst]

theorem cycle_track_state (w h : Nat) (s : RunState)
    (hc : ¬ s.detection_count < 2) :
    (cycle w h s).1.servo_angle = s.servo_angle ∧
    (cycle w h s).1.servo_direction = s.servo_direction := by
  unfold cycle
  rw [if_neg hc]
  cases hl : s.detection_result_list with
  | nil => simp [take, hl]
  | cons b t => simp [take, hl, track_batch_fst]

theorem step_angle (w h : Nat) (s : RunState) (e : Event)
    (hc : 2 ≤ s.detection_count) :
    (step w h s e).servo_angle = s.servo_angle := by
  cases e with
  | publish b => rfl
  | tick => exact (cycle_track_state w h s (by omega)).1

theorem step_publish_count (w h : Nat) (s : RunState) (b : Batch) :
    (step w h s (.publish b)).detection_count =
      s.detection_count + (if 2 ≤ b.length then 1 else 0) := by
  show (save_result s b).detection_count = _
  unfold save_result
  dsimp only
  split <;> simp

theorem step_tick_count (w h : Nat) (s : RunState) :
    (step w h s .tick).detection_count = s.detection_count := by
  simp [step, cycle_count]

theorem step_count_mono (w h : Nat) (s : RunState) (e : Event) :
    s.detection_count ≤ (step w h s e).detection_count := by
  cases e with
  | publish b => rw [step_publish_count]; omega
  | tick => rw [step_tick_count]

theorem runEvents_cons (w h : Nat) (s : RunState) (e : Event)
    (es : List Event) :
    runEvents w h s (e :: es) = runEvents w h (step w h s e) es := rfl

theorem runEvents_append (w h : Nat) (s : RunState) (l1 l2 : List Event) :
    runEvents w h s (l1 ++ l2) = runEvents w h (runEvents w h s l1) l2 :=
  List.foldl_append _ _ _ _

theorem lockPublishes_cons_publish (b : Batch) (es : List Event) :
    lockPublishes (Event.publish b :: es) =
      (if 2 ≤ b.length then 1 else 0) + lockPublishes es := by
  unfold lockPublishes
  rw [List.countP_cons]
  dsimp only
  simp only [decide_eq_true_eq]
  split_ifs <;> omega

theorem lockPublishes_cons_tick (es : List Event) :
    lockPublishes (Event.tick :: es) = lockPublishes es := by
  unfold lockPublishes
  rw [List.countP_cons]
  simp

theorem runEvents_count (w h : Nat) (s : RunState) (evs : List Event) :
    (runEvents w h s evs).detection_count =
      s.detection_count + lockPublishes evs := by
  induction evs generalizing s with
  | nil => rfl
  | cons e es ih =>
    rw [runEvents_cons, ih]
    cases e with
    | publish b =>
      rw [step_publish_count, lockPublishes_cons_publish]
      omega
    | tick =>
      rw [step_tick_count, lockPublishes_cons_tick]

theorem runEvents_angle (w h : Nat) (s : RunState) (evs : List Event)
    (hc : 2 ≤ s.detection_count) :
    (runEvents w h s evs).servo_angle = s.servo_angle := by
  induction evs generalizing s with
  | nil => rfl
  | cons e es ih =>
    rw [runEvents_cons]
    have hc' : 2 ≤ (step w h s e).detection_count :=
      le_trans hc (step_count_mono w h s e)
    rw [ih _ hc', step_angle w h s e hc]

/-! ## Scan Behavior lemmas -/

theorem scan_step_inv (s : RunState) (hs : ScanInv s) :
    ScanInv (move_servo_continuous s).1 := by
  obtain ⟨h10, h0, h180, hdir, hz, ho⟩ := hs
  unfold move_servo_continuous set_angle
  dsimp only
  unfold ScanInv
  rcases hdir with hd | hd <;> split_ifs with hb <;> dsimp only <;>
    refine ⟨?_, ?_, ?_, ?_, ?_, ?_⟩ <;> omega

theorem scan_step_flip (s : RunState) (hs : ScanInv s) :
    ((move_servo_continuous s).1.servo_direction = -s.servo_direction ↔
      (move_servo_continuous s).1.servo_angle = 0 ∨
      (move_servo_continuous s).1.servo_angle = 180) := by
  obtain ⟨h10, h0, h180, hdir, hz, ho⟩ := hs
  have hz' : ¬ (s.servo_angle = 0 ∧ s.servo_direction = -1) := by
    rintro ⟨he, hd⟩
    rw [hz he] at hd
    exact absurd hd (by decide)
  have ho' : ¬ (s.servo_angle = 180 ∧ s.servo_direction = 1) := by
    rintro ⟨he, hd⟩
    rw [ho he] at hd
    exact absurd hd (by decide)
  unfold move_servo_continuous set_angle
  dsimp only
  rcases hdir with hd | hd <;> split_ifs with hb <;> dsimp only <;>
    constructor <;> intro hq <;> omega

theorem scanCmds_bounded (s : RunState) (n : Nat) (hs : ScanInv s) :
    (∀ c ∈ scanCmds s n, 0 ≤ c ∧ c ≤ 180) ∧ ScanInv (scanIter s n) := by
  induction n generalizing s with
  | zero =>
    refine ⟨?_, hs⟩
    intro c hc
    simp [scanCmds] at hc
  | succ n ih =>
    obtain ⟨hbd, hi⟩ := ih (move_servo_continuous s).1 (scan_step_inv s hs)
    refine ⟨?_, hi⟩
    intro c hc
    simp only [scanCmds, move_servo_continuous_cmds, List.mem_append,
      List.mem_singleton] at hc
    rcases hc with rfl | hc
    · exact ⟨hs.2.1, hs.2.2.1⟩
    · exact hbd c hc

/-! ## LED lemmas -/

theorem save_result_led (s : RunState) (b : Batch) :
    (save_result s b).led = s.led := rfl

theorem led_low_while_scanning (w h : Nat) (evs : List Event) :
    (runEvents w h initState evs).detection_count < 2 →
    (runEvents w h initState evs).led = false := by
  have key : ∀ (es : List Event) (s : RunState),
      (s.detection_count < 2 → s.led = false) →
      ((runEvents w h s es).detection_count < 2 →
        (runEvents w h s es).led = false) := by
    intro es
    induction es with
    | nil => intro s hs; exact hs
    | cons e es ih =>
      intro s hs
      rw [runEvents_cons]
      apply ih
      intro h2
      have hslt : s.detection_count < 2 :=
        lt_of_le_of_lt (step_count_mono w h s e) h2
      have hled := hs hslt
      cases e with
      | publish b =>
        show (save_result s b).led = false
        rw [save_result_led]
        exact hled
      | tick =>
        show (cycle w h s).1.led = false
        unfold cycle
        rw [if_pos hslt, move_servo_continuous_led]
        exact hled
  exact key evs initState (fun _ => rfl)

theorem cycle_led_iff (w h : Nat) (s : RunState)
    (hs : s.detection_count < 2 → s.led = false) :
    ((cycle w h s).1.led = true ↔
      2 ≤ s.detection_count ∧ s.detection_result_list ≠ []) := by
  by_cases hc : s.detection_count < 2
  · unfold cycle
    rw [if_pos hc, move_servo_continuous_led, hs hc]
    constructor
    · intro ht
      exact absurd ht (by decide)
    · intro hand
      exact absurd hand.1 (by omega)
  · cases hl : s.detection_result_list with
    | nil =>
      unfold cycle
      rw [if_neg hc]
      constructor
      · intro ht
        simp [take, hl] at ht
      · intro hand
        exact absurd rfl hand.2
    | cons b t =>
      unfold cycle
      rw [if_neg hc]
      constructor
      · intro _
        exact ⟨by omega, by simp⟩
      · intro _
        simp [take, hl]

/-! ## The claims -/

/-- Claim C1, counterexample: publishing batch B1 = [] and then
B2 = [rightDet] with no take in between makes the next take return B1,
not B2 — save_result queues, and the consumer drains the oldest batch;
there is no overwrite. -/
theorem mailbox_overwrite_cex :
    (take (save_result (save_result initState []) [rightDet])).1 =
      some ([] : Batch) ∧
    some ([] : Batch) ≠ some [rightDet] := by decide

/-- Claim C1 (amended): publishing B1 then B2 with no take in between
means the next take returns B1 — the earliest unconsumed batch — exactly
once and never both, and clears the whole mailbox, so B2 is discarded
unconsumed. -/
theorem mailbox_take_first (s : RunState) (B1 B2 : Batch)
    (he : s.detection_result_list = []) :
    (take (save_result (save_result s B1) B2)).1 = some B1 ∧
    (take (save_result (save_result s B1) B2)).2.detection_result_list =
      [] := by
  simp [take, save_result, he]

/-- Witness for `mailbox_take_first` at the initial state with B1 = [] and
B2 = [rightDet]. -/
theorem mailbox_take_first_witness :
    (take (save_result (save_result initState []) [rightDet])).1 =
      some ([] : Batch) ∧
    (take (save_result (save_result initState [])
      [rightDet])).2.detection_result_list = [] :=
  mailbox_take_first initState [] [rightDet] rfl

/-- Claim C2, counterexample: the call set_angle(50) from the initial
state leaves the stored servo_angle at 0, not 50 — the set-angle operation
does not update the stored angle state. -/
theorem set_angle_no_store_cex :
    (set_angle initState 50).1.servo_angle = 0 ∧ (0 : Int) ≠ 50 := by
  decide

/-- Claim C2 (amended): set_angle drives the actuator (the commanded
angle is emitted) but leaves the stored servo_angle unchanged; the store
is advanced only by the Scan Behavior, which commands the current angle
and then adds 10 * servo_direction to it. -/
theorem set_angle_no_store (s : RunState) (a : Int) :
    (set_angle s a).1.servo_angle = s.servo_angle ∧
    (set_angle s a).2 = [a] ∧
    (move_servo_continuous s).2 = [s.servo_angle] ∧
    (move_servo_continuous s).1.servo_angle =
      s.servo_angle + 10 * s.servo_direction :=
  ⟨rfl, rfl, move_servo_continuous_cmds s, move_servo_continuous_angle s⟩

/-- Claim C3, counterexample: in the end-to-end scenario, the cycle that
consumes the batch centered at (200,240) issues exactly one correction,
commanding angle 5 while the stored angle is 10 — the command decreases
the angle; it does not move it toward increasing angle. -/
theorem end_to_end_cex :
    endToEndState.servo_angle = 10 ∧
    (cycle 640 480 endToEndState).2 = [5] ∧
    ¬ (10 : Int) < 5 := by decide

/-- Claim C3 (amended): after two batches with 2 detections each latch
Tracking mode, a batch with one detection centered at (200,240) in a
640 by 480 frame produces exactly one horizontal correction call of
servo_angle − 5 — decreasing the angle, the code's convention for a
target left of center — and the indicator is ON for that cycle. -/
theorem end_to_end_scenario :
    mode endToEndState = Mode.tracking ∧
    (cycle 640 480 endToEndState).2 = [endToEndState.servo_angle - 5] ∧
    endToEndState.servo_angle - 5 < endToEndState.servo_angle ∧
    (cycle 640 480 endToEndState).1.led = true := by decide

/-- Claim C4: from the initial state the controller is in Scanning exactly
while detection_count (lockStreak) is below 2, and once it is in Tracking
it is in Tracking after every extension of the event sequence — there is
no reachable transition back to Scanning. -/
theorem scan_track_sticky :
    (∀ w h evs, mode (runEvents w h initState evs) = Mode.scanning ↔
      (runEvents w h initState evs).detection_count < 2) ∧
    (∀ w h evs more, mode (runEvents w h initState evs) = Mode.tracking →
      mode (runEvents w h initState (evs ++ more)) = Mode.tracking) := by
  constructor
  · intro w h evs
    unfold mode
    split_ifs with hc
    · simp [hc]
    · simp [hc]
  · intro w h evs more ht
    have h2 : 2 ≤ (runEvents w h initState evs).detection_count := by
      by_contra hlt
      unfold mode at ht
      rw [if_pos (by omega)] at ht
      exact absurd ht (by decide)
    rw [runEvents_append]
    unfold mode
    rw [if_neg (by rw [runEvents_count]; omega)]

/-- Witness for `scan_track_sticky`: after two lock publishes the mode is
Tracking, and stays Tracking after one more cycle. -/
theorem scan_track_sticky_witness :
    mode (runEvents 640 480 initState
      ([.publish [centeredDet, centeredDet],
        .publish [centeredDet, centeredDet]] ++ [.tick])) =
      Mode.tracking :=
  scan_track_sticky.2 640 480
    [.publish [centeredDet, centeredDet],
     .publish [centeredDet, centeredDet]] [.tick] (by decide)

/-- Claim C5, counterexample: starting the sweep at angle 175 with
direction +1 — a starting angle in [0,180] — the second invocation
commands 185, outside [0,180]. -/
theorem scan_bounds_cex :
    (185 : Int) ∈ scanCmds (⟨[], 0, 175, 1, false⟩ : RunState) 2 ∧
    ¬ ((185 : Int) ≤ 180) := by decide

/-- Claim C5 (amended): for starting states whose angle is a multiple of
10 in [0,180] with direction ±1 pointing inward at a bound — the
program's initial state among them — every commanded angle of repeated
Scan Behavior invocations stays within [0,180], the state stays in that
set, and the direction reverses exactly when the advanced angle reaches a
bound (0 or 180).  For other starting angles the commanded angle can
leave [0,180]. -/
theorem scan_sweep_bounds (s : RunState) (n : Nat) (hs : ScanInv s) :
    (∀ c ∈ scanCmds s n, 0 ≤ c ∧ c ≤ 180) ∧ ScanInv (scanIter s n) ∧
    ((move_servo_continuous s).1.servo_direction = -s.servo_direction ↔
      (move_servo_continuous s).1.servo_angle = 0 ∨
      (move_servo_continuous s).1.servo_angle = 180) :=
  ⟨(scanCmds_bounded s n hs).1, (scanCmds_bounded s n hs).2,
    scan_step_flip s hs⟩

/-- Witness for `scan_sweep_bounds` at the initial state over 19
invocations (a full sweep and the turn). -/
theorem scan_sweep_bounds_witness :
    (∀ c ∈ scanCmds initState 19, 0 ≤ c ∧ c ≤ 180) ∧
    ScanInv (scanIter initState 19) ∧
    ((move_servo_continuous initState).1.servo_direction =
        -initState.servo_direction ↔
      (move_servo_continuous initState).1.servo_angle = 0 ∨
      (move_servo_continuous initState).1.servo_angle = 180) :=
  scan_sweep_bounds initState 19 (by unfold ScanInv; decide)

/-- Claim C6: along any event sequence detection_count (lockStreak) grows
by exactly the number of published batches with at least 2 detections —
it is non-decreasing, increases by one per publish with ≥2 detections,
and is left unchanged (never reset) by a publish with fewer. -/
theorem lock_streak_monotone (w h : Nat) (s : RunState)
    (evs : List Event) :
    (runEvents w h s evs).detection_count =
      s.detection_count + lockPublishes evs ∧
    s.detection_count ≤ (runEvents w h s evs).detection_count ∧
    (∀ b, (save_result s b).detection_count =
      if 2 ≤ b.length then s.detection_count + 1
      else s.detection_count) := by
  refine ⟨runEvents_count w h s evs, ?_, fun b => rfl⟩
  rw [runEvents_count]
  omega

/-- Claim C7 (amended): after any reachable cycle the indicator is ON
exactly when that cycle consumed a batch from the mailbox — a batch of
any size, including one with zero detections — and OFF on every other
cycle (scanning cycles, and tracking cycles with an empty mailbox). -/
theorem indicator_coupling (w h : Nat) (evs : List Event) :
    ((cycle w h (runEvents w h initState evs)).1.led = true ↔
      2 ≤ (runEvents w h initState evs).detection_count ∧
      (runEvents w h initState evs).detection_result_list ≠ []) :=
  cycle_led_iff w h _ (led_low_while_scanning w h evs)

/-- Claim C7, counterexample: after two lock publishes and a consuming
cycle, publishing a batch with zero detections makes the next cycle set
the indicator ON even though the batch it consumed is empty — the
indicator does not require a non-empty batch. -/
theorem indicator_cex :
    (runEvents 640 480 initState
      [.publish [centeredDet, centeredDet],
       .publish [centeredDet, centeredDet], .tick,
       .publish []]).detection_result_list = [([] : Batch)] ∧
    (cycle 640 480 (runEvents 640 480 initState
      [.publish [centeredDet, centeredDet],
       .publish [centeredDet, centeredDet], .tick,
       .publish []])).1.led = true := by decide

/-- Claim C8: with frame center (320,240) and tolerance 20, a detection
centered at (325,240) triggers no correction call, and a detection
centered at (345,240) triggers exactly one horizontal correction call of
servo_angle + 5 — the code's sign for a target right of center. -/
theorem deadband_correct (s : RunState) :
    (move_servo_to_center s (bboxCenterX nearCenterDet.bounding_box)
      (bboxCenterY nearCenterDet.bounding_box) 320 240).2 = [] ∧
    (move_servo_to_center s (bboxCenterX rightDet.bounding_box)
      (bboxCenterY rightDet.bounding_box) 320 240).2 =
      [s.servo_angle + 5] := by
  constructor <;>
    simp [move_servo_to_center, set_angle, absDiff, bboxCenterX,
      bboxCenterY, nearCenterDet, rightDet]

/-- Claim C9: a Tracking-mode cycle whose take finds the mailbox empty
issues no actuator command and only lowers the indicator: the state is
unchanged except for the LED, and the commanded-angle list is empty. -/
theorem empty_mailbox_frame (w h : Nat) (s : RunState)
    (hc : 2 ≤ s.detection_count) (he : s.detection_result_list = []) :
    cycle w h s = ({ s with led := false }, []) := by
  unfold cycle
  rw [if_neg (by omega)]
  simp [take, he]

/-- Witness for `empty_mailbox_frame` at a concrete Tracking-mode state
with an empty mailbox. -/
theorem empty_mailbox_frame_witness :
    cycle 640 480 (⟨[], 2, 10, 1, true⟩ : RunState) =
      ((⟨[], 2, 10, 1, false⟩ : RunState), []) :=
  empty_mailbox_frame 640 480 ⟨[], 2, 10, 1, true⟩ (by decide) rfl

/-- Claim C10: a Tracking-mode cycle never writes servo_angle or
servo_direction, every correction it issues equals the stored angle plus
or minus 5, and once detection_count has reached 2 the stored angle keeps
its value over any further events — corrections do not accumulate. -/
theorem tracking_angle_frozen :
    (∀ w h s, 2 ≤ s.detection_count →
      (cycle w h s).1.servo_angle = s.servo_angle ∧
      (cycle w h s).1.servo_direction = s.servo_direction ∧
      (∀ c ∈ (cycle w h s).2,
        c = s.servo_angle - 5 ∨ c = s.servo_angle + 5)) ∧
    (∀ w h s evs, 2 ≤ s.detection_count →
      (runEvents w h s evs).servo_angle = s.servo_angle) := by
  constructor
  · intro w h s hc
    refine ⟨(cycle_track_state w h s (by omega)).1,
            (cycle_track_state w h s (by omega)).2, ?_⟩
    intro c hcm
    unfold cycle at hcm
    rw [if_neg (by omega)] at hcm
    cases hl : s.detection_result_list with
    | nil => simp [take, hl] at hcm
    | cons b t =>
      simp only [take, hl] at hcm
      exact track_batch_mem (w / 2) (h / 2)
        { s with detection_result_list := [] } b c hcm
  · intro w h s evs hc
    exact runEvents_angle w h s evs hc

end ServoAI
